import Mathlib

/-!
Verification of the livekit-interview-backend HTTP API and diagnostic
script.  The definitions below are a shallow embedding of
`src/app/api/main.py` and `src/test_api_keys.py`: pure request handlers
take the outcomes of external service calls (booking store, email
provider, object storage, credential probes) as explicit arguments, and
Python's datetime parsing is modelled on the extended ISO-8601 profile
`YYYY-MM-DDTHH:MM:SS[±HH:MM|Z]` that `datetime.fromisoformat` accepts on
every supported interpreter version.
-/

namespace LKInterview

/-- A parsed Python `datetime` value: calendar fields plus an optional
fixed UTC offset in minutes (`none` means a naive datetime). -/
structure PyDateTime where
  year : Nat
  month : Nat
  day : Nat
  hour : Nat
  minute : Nat
  second : Nat
  tzOffsetMinutes : Option Int
deriving Repr, DecidableEq

/-- One ASCII decimal digit, as `datetime.fromisoformat` reads it. -/
def parseDigit (c : Char) : Option Nat :=
  if c.isDigit then some (c.toNat - 48) else none

/-- Two-digit zero-padded field. -/
def parse2 : List Char → Option (Nat × List Char)
  | a :: b :: rest =>
    match parseDigit a, parseDigit b with
    | some x, some y => some (10 * x + y, rest)
    | _, _ => none
  | _ => none

/-- Four-digit zero-padded year field. -/
def parse4 : List Char → Option (Nat × List Char)
  | a :: b :: c :: d :: rest =>
    match parseDigit a, parseDigit b, parseDigit c, parseDigit d with
    | some x, some y, some z, some w => some (1000 * x + 100 * y + 10 * z + w, rest)
    | _, _, _, _ => none
  | _ => none

/-- Consume one expected separator character. -/
def expectChar (c : Char) : List Char → Option (List Char)
  | x :: rest => if x = c then some rest else none
  | [] => none

/-- Offset body `HH:MM`, validated the way Python's `timezone` accepts
fixed offsets (hours below 24, minutes below 60); yields total minutes. -/
def parseHM (l : List Char) : Option (Nat × List Char) :=
  match parse2 l with
  | none => none
  | some (hh, r1) =>
    match expectChar ':' r1 with
    | none => none
    | some r2 =>
      match parse2 r2 with
      | none => none
      | some (mm, r3) =>
        if hh ≤ 23 && mm ≤ 59 then some (hh * 60 + mm, r3) else none

/-- Optional trailing UTC offset: empty (naive), `Z`, `+HH:MM` or
`-HH:MM`.  Any other trailing text is left unconsumed and rejected by the
caller's end-of-input check. -/
def parseOffsetPart : List Char → Option (Option Int × List Char)
  | [] => some (none, [])
  | 'Z' :: rest => some (some 0, rest)
  | '+' :: rest =>
    match parseHM rest with
    | some (m, r) => some (some (m : Int), r)
    | none => none
  | '-' :: rest =>
    match parseHM rest with
    | some (m, r) => some (some (-(m : Int)), r)
    | none => none
  | l => some (none, l)

/-- Gregorian leap-year rule used by Python's `datetime`. -/
def isLeapYear (y : Nat) : Bool :=
  (y % 4 == 0 && y % 100 != 0) || y % 400 == 0

/-- Length of a month, as `datetime` validates the day field. -/
def daysInMonth (y m : Nat) : Nat :=
  if m = 2 then (if isLeapYear y then 29 else 28)
  else if m = 4 || m = 6 || m = 9 || m = 11 then 30
  else 31

/-- Field validation performed by the `datetime` constructor. -/
def validDT (y mo d h mi s : Nat) : Bool :=
  1 ≤ y && y ≤ 9999 && 1 ≤ mo && mo ≤ 12 && 1 ≤ d && d ≤ daysInMonth y mo &&
    h ≤ 23 && mi ≤ 59 && s ≤ 59

/-- A fixed offset must be strictly less than 24 hours in magnitude. -/
def validOffset : Option Int → Bool
  | none => true
  | some off => off.natAbs ≤ 23 * 60 + 59

/-- `datetime.fromisoformat` on the extended ISO profile
`YYYY-MM-DDTHH:MM:SS[±HH:MM|Z]`: the common subset accepted by every
Python version the backend supports. -/
def pyFromIsoformat (l : List Char) : Option PyDateTime :=
  match parse4 l with
  | none => none
  | some (y, r1) =>
  match expectChar '-' r1 with
  | none => none
  | some r2 =>
  match parse2 r2 with
  | none => none
  | some (mo, r3) =>
  match expectChar '-' r3 with
  | none => none
  | some r4 =>
  match parse2 r4 with
  | none => none
  | some (d, r5) =>
  match expectChar 'T' r5 with
  | none => none
  | some r6 =>
  match parse2 r6 with
  | none => none
  | some (h, r7) =>
  match expectChar ':' r7 with
  | none => none
  | some r8 =>
  match parse2 r8 with
  | none => none
  | some (mi, r9) =>
  match expectChar ':' r9 with
  | none => none
  | some r10 =>
  match parse2 r10 with
  | none => none
  | some (s, r11) =>
  match parseOffsetPart r11 with
  | none => none
  | some (tz, r12) =>
    if r12.isEmpty && validDT y mo d h mi s && validOffset tz then
      some ⟨y, mo, d, h, mi, s, tz⟩
    else none

/-- Python `s.replace('Z', '+00:00')` (replaces every occurrence), as
performed by `schedule_interview` before the first parse attempt. -/
def replaceZChars : List Char → List Char
  | [] => []
  | c :: cs =>
    if c = 'Z' then '+' :: '0' :: '0' :: ':' :: '0' :: '0' :: replaceZChars cs
    else c :: replaceZChars cs

/-- The handler's heuristic for "has timezone info":
`'Z' in s or '+' in s or s.count('-') > 2`. -/
def hasTZMarkerChars (l : List Char) : Bool :=
  decide ('Z' ∈ l) || decide ('+' ∈ l) ||
    decide (2 < l.countP (fun c => decide (c = '-')))

/-- Days since 1970-01-01 of a Gregorian civil date (standard
era/year-of-era computation; exact for all years from 1). -/
def daysFromCivil (y m d : Nat) : Int :=
  let yi : Int := if m ≤ 2 then (y : Int) - 1 else (y : Int)
  let era : Int := (if 0 ≤ yi then yi else yi - 399) / 400
  let yoe : Int := yi - era * 400
  let mp : Int := if 2 < m then (m : Int) - 3 else (m : Int) + 9
  let doy : Int := (153 * mp + 2) / 5 + (d : Int) - 1
  let doe : Int := yoe * 365 + yoe / 4 - yoe / 100 + doy
  era * 146097 + doe - 719468

/-- Seconds since the epoch of the calendar fields read at UTC,
ignoring any attached offset. -/
def naiveEpochSeconds (dt : PyDateTime) : Int :=
  daysFromCivil dt.year dt.month dt.day * 86400 +
    dt.hour * 3600 + dt.minute * 60 + dt.second

/-- The instant an aware datetime denotes, in seconds since the epoch
(a naive datetime is read at UTC). -/
def toUTCSeconds (dt : PyDateTime) : Int :=
  naiveEpochSeconds dt - (dt.tzOffsetMinutes.getD 0) * 60

/-- IST, the fixed `timezone(timedelta(hours=5, minutes=30))` the
handler assumes for offset-less inputs. -/
def istMinutes : Int := 330

/-- Python `naive.replace(tzinfo=ist)`: stamps the IST offset onto the
fields without moving them. -/
def setIST (dt : PyDateTime) : PyDateTime :=
  { dt with tzOffsetMinutes := some istMinutes }

/-- The datetime-parsing block of `schedule_interview`
(src/app/api/main.py lines 178-203), returning the stored UTC instant:
if the string looks timezone-aware, parse it after replacing `Z`;
otherwise parse it naive, stamp IST and convert to UTC; on failure retry
as-is, stamping IST only when the result is naive. -/
def parseScheduleInstant (l : List Char) : Option Int :=
  let primary : Option PyDateTime :=
    if hasTZMarkerChars l then pyFromIsoformat (replaceZChars l)
    else (pyFromIsoformat l).map setIST
  match primary with
  | some dt => some (toUTCSeconds dt)
  | none =>
    match pyFromIsoformat l with
    | some dt =>
      some (toUTCSeconds (if dt.tzOffsetMinutes.isNone then setIST dt else dt))
    | none => none

/-! Renderings of well-formed ISO strings.  `renderISO dt useZ` produces
the extended-profile string denoting `dt`; quantifying over `dt` and
`useZ` ranges over every well-formed datetime string of the modelled
grammar. -/

/-- Two-digit zero-padded rendering. -/
def render2 (n : Nat) : List Char :=
  [Nat.digitChar (n / 10), Nat.digitChar (n % 10)]

/-- Four-digit zero-padded rendering. -/
def render4 (n : Nat) : List Char :=
  [Nat.digitChar (n / 1000), Nat.digitChar (n / 100 % 10),
   Nat.digitChar (n / 10 % 10), Nat.digitChar (n % 10)]

/-- Rendering of the optional offset: nothing for naive, `Z` for UTC
when requested, `±HH:MM` otherwise. -/
def renderOffset : Option Int → Bool → List Char
  | none, _ => []
  | some off, useZ =>
    if useZ && off == 0 then ['Z']
    else (if off < 0 then '-' else '+') ::
      (render2 (off.natAbs / 60) ++ ':' :: render2 (off.natAbs % 60))

/-- The date-time part `YYYY-MM-DDTHH:MM:SS` of the rendering. -/
def renderPrefix (dt : PyDateTime) : List Char :=
  render4 dt.year ++ '-' :: render2 dt.month ++ '-' :: render2 dt.day ++
    'T' :: render2 dt.hour ++ ':' :: render2 dt.minute ++ ':' :: render2 dt.second

/-- The full ISO rendering `YYYY-MM-DDTHH:MM:SS[offset]`. -/
def renderISO (dt : PyDateTime) (useZ : Bool) : List Char :=
  renderPrefix dt ++ renderOffset dt.tzOffsetMinutes useZ

/-- Well-formedness of a datetime value (fields in range, offset legal). -/
def isValidDT (dt : PyDateTime) : Bool :=
  validDT dt.year dt.month dt.day dt.hour dt.minute dt.second &&
    validOffset dt.tzOffsetMinutes

theorem parseDigit_digitChar_fin :
    ∀ d : Fin 10, parseDigit (Nat.digitChar d.val) = some d.val := by decide

theorem parseDigit_digitChar (d : Nat) (h : d < 10) :
    parseDigit (Nat.digitChar d) = some d :=
  parseDigit_digitChar_fin ⟨d, h⟩

theorem parse2_render2 (n : Nat) (h : n < 100) (rest : List Char) :
    parse2 (render2 n ++ rest) = some (n, rest) := by
  have h1 : n / 10 < 10 := by omega
  have h2 : n % 10 < 10 := by omega
  simp [render2, parse2, parseDigit_digitChar _ h1, parseDigit_digitChar _ h2]
  omega

theorem parse4_render4 (n : Nat) (h : n < 10000) (rest : List Char) :
    parse4 (render4 n ++ rest) = some (n, rest) := by
  have h1 : n / 1000 < 10 := by omega
  have h2 : n / 100 % 10 < 10 := by omega
  have h3 : n / 10 % 10 < 10 := by omega
  have h4 : n % 10 < 10 := by omega
  simp [render4, parse4, parseDigit_digitChar _ h1, parseDigit_digitChar _ h2,
    parseDigit_digitChar _ h3, parseDigit_digitChar _ h4]
  omega

theorem parseHM_render (off : Int) (h : off.natAbs ≤ 23 * 60 + 59) (rest : List Char) :
    parseHM (render2 (off.natAbs / 60) ++ ':' :: render2 (off.natAbs % 60) ++ rest) =
      some (off.natAbs, rest) := by
  have h1 : off.natAbs / 60 < 100 := by omega
  have h2 : off.natAbs % 60 < 100 := by omega
  have h3 : off.natAbs / 60 ≤ 23 := by omega
  have h4 : off.natAbs % 60 ≤ 59 := by omega
  simp [parseHM, parse2_render2 _ h1, expectChar, parse2_render2 _ h2, h3, h4]
  omega

theorem parseHM_render_nil (off : Int) (h : off.natAbs ≤ 23 * 60 + 59) :
    parseHM (render2 (off.natAbs / 60) ++ ':' :: render2 (off.natAbs % 60)) =
      some (off.natAbs, []) := by
  have := parseHM_render off h []
  simpa using this

theorem parseOffsetPart_render (tz : Option Int) (useZ : Bool)
    (h : validOffset tz = true) :
    parseOffsetPart (renderOffset tz useZ) = some (tz, []) := by
  match tz with
  | none => simp [renderOffset, parseOffsetPart]
  | some off =>
    have hoff : off.natAbs ≤ 23 * 60 + 59 := by
      simpa [validOffset] using h
    cases hzb : (useZ && off == 0) with
    | true =>
      have huz : useZ = true := by cases useZ <;> simp_all
      have hoff0 : off = 0 := by cases useZ <;> simp_all
      simp [renderOffset, hzb, huz, hoff0, parseOffsetPart]
    | false =>
      by_cases hneg : off < 0
      · have hshape : renderOffset (some off) useZ =
            '-' :: (render2 (off.natAbs / 60) ++ ':' :: render2 (off.natAbs % 60)) := by
          simp [renderOffset, hzb, hneg]
        rw [hshape]
        simp only [parseOffsetPart, parseHM_render_nil off hoff]
        have habs : (-(off.natAbs : Int)) = off := by omega
        rw [habs]
      · have hshape : renderOffset (some off) useZ =
            '+' :: (render2 (off.natAbs / 60) ++ ':' :: render2 (off.natAbs % 60)) := by
          simp [renderOffset, hzb, hneg]
        rw [hshape]
        simp only [parseOffsetPart, parseHM_render_nil off hoff]
        have habs : ((off.natAbs : Int)) = off := by omega
        rw [habs]

theorem daysInMonth_le (y m : Nat) : daysInMonth y m ≤ 31 := by
  unfold daysInMonth
  split_ifs <;> omega

theorem pyFromIsoformat_render (dt : PyDateTime) (useZ : Bool)
    (h : isValidDT dt = true) :
    pyFromIsoformat (renderISO dt useZ) = some dt := by
  obtain ⟨y, mo, d, hh, mi, s, tz⟩ := dt
  have hv : validDT y mo d hh mi s = true := by
    simp [isValidDT] at h; exact h.1
  have hvo : validOffset tz = true := by
    simp [isValidDT] at h; exact h.2
  have hb := hv
  simp only [validDT, Bool.and_eq_true, decide_eq_true_eq] at hb
  have hdm := daysInMonth_le y mo
  have hy : y < 10000 := by omega
  have hmo : mo < 100 := by omega
  have hd : d < 100 := by omega
  have hhh : hh < 100 := by omega
  have hmi : mi < 100 := by omega
  have hs : s < 100 := by omega
  simp only [renderISO, renderPrefix, List.append_assoc, List.cons_append]
  simp [pyFromIsoformat, parse4_render4 y hy, expectChar,
    parse2_render2 mo hmo, parse2_render2 d hd, parse2_render2 hh hhh,
    parse2_render2 mi hmi, parse2_render2 s hs,
    parseOffsetPart_render tz useZ hvo, hv, hvo]

theorem digit_ne_fin : ∀ d : Fin 10,
    ('Z' ≠ Nat.digitChar d.val ∧ '+' ≠ Nat.digitChar d.val) ∧
      Nat.digitChar d.val ≠ '-' := by decide

theorem digit_ne (d : Nat) (h : d < 10) :
    ('Z' ≠ Nat.digitChar d ∧ '+' ≠ Nat.digitChar d) ∧ Nat.digitChar d ≠ '-' :=
  digit_ne_fin ⟨d, h⟩

/-- Character-class facts about a two-digit field: it contains neither
`Z` nor `+` nor any dash. -/
theorem render2_facts (n : Nat) (h : n < 100) :
    ('Z' ∉ render2 n ∧ '+' ∉ render2 n) ∧
      (render2 n).countP (fun c => decide (c = '-')) = 0 := by
  have f1 := digit_ne (n / 10) (by omega)
  have f2 := digit_ne (n % 10) (by omega)
  refine ⟨⟨?_, ?_⟩, ?_⟩ <;>
    simp [render2, List.countP_cons, f1.1.1, f1.1.2, f1.2, f2.1.1, f2.1.2, f2.2]

theorem render4_facts (n : Nat) (h : n < 10000) :
    ('Z' ∉ render4 n ∧ '+' ∉ render4 n) ∧
      (render4 n).countP (fun c => decide (c = '-')) = 0 := by
  have f1 := digit_ne (n / 1000) (by omega)
  have f2 := digit_ne (n / 100 % 10) (by omega)
  have f3 := digit_ne (n / 10 % 10) (by omega)
  have f4 := digit_ne (n % 10) (by omega)
  refine ⟨⟨?_, ?_⟩, ?_⟩ <;>
    simp [render4, List.countP_cons, f1.1.1, f1.1.2, f1.2, f2.1.1, f2.1.2, f2.2,
      f3.1.1, f3.1.2, f3.2, f4.1.1, f4.1.2, f4.2]

/-- The date-time prefix of a valid rendering contains no `Z`, no `+`,
and exactly the two date dashes. -/
theorem renderPrefix_facts (dt : PyDateTime) (h : isValidDT dt = true) :
    ('Z' ∉ renderPrefix dt ∧ '+' ∉ renderPrefix dt) ∧
      (renderPrefix dt).countP (fun c => decide (c = '-')) = 2 := by
  obtain ⟨y, mo, d, hh, mi, s, tz⟩ := dt
  have hb : validDT y mo d hh mi s = true := by
    simp [isValidDT] at h; exact h.1
  simp only [validDT, Bool.and_eq_true, decide_eq_true_eq] at hb
  have hdm := daysInMonth_le y mo
  have fy := render4_facts y (by omega)
  have fmo := render2_facts mo (by omega)
  have fd := render2_facts d (by omega)
  have fhh := render2_facts hh (by omega)
  have fmi := render2_facts mi (by omega)
  have fs := render2_facts s (by omega)
  refine ⟨⟨?_, ?_⟩, ?_⟩ <;>
    simp [renderPrefix, List.countP_append, List.countP_cons, List.mem_append,
      fy.1.1, fy.1.2, fy.2, fmo.1.1, fmo.1.2, fmo.2, fd.1.1, fd.1.2, fd.2,
      fhh.1.1, fhh.1.2, fhh.2, fmi.1.1, fmi.1.2, fmi.2, fs.1.1, fs.1.2, fs.2]

/-- A valid naive rendering triggers none of the handler's timezone
markers: no `Z`, no `+`, and only the two date dashes. -/
theorem marker_naive (dt : PyDateTime) (useZ : Bool) (h : isValidDT dt = true)
    (htz : dt.tzOffsetMinutes = none) :
    hasTZMarkerChars (renderISO dt useZ) = false := by
  have hp := renderPrefix_facts dt h
  simp [hasTZMarkerChars, renderISO, renderOffset, htz, List.countP_append,
    hp.1.1, hp.1.2, hp.2]

/-- A valid aware rendering always triggers one of the handler's
timezone markers. -/
theorem marker_aware (dt : PyDateTime) (useZ : Bool) (off : Int)
    (h : isValidDT dt = true) (htz : dt.tzOffsetMinutes = some off) :
    hasTZMarkerChars (renderISO dt useZ) = true := by
  have hp := renderPrefix_facts dt h
  cases hzb : (useZ && off == 0) with
  | true =>
    simp [hasTZMarkerChars, renderISO, renderOffset, htz, hzb, List.mem_append]
  | false =>
    by_cases hneg : off < 0
    · have hshape : renderOffset (some off) useZ =
          '-' :: (render2 (off.natAbs / 60) ++ ':' :: render2 (off.natAbs % 60)) := by
        simp [renderOffset, hzb, hneg]
      have hvo : validOffset dt.tzOffsetMinutes = true := by
        simp [isValidDT] at h; exact h.2
      rw [htz] at hvo
      have hoff : off.natAbs ≤ 23 * 60 + 59 := by simpa [validOffset] using hvo
      have fa := render2_facts (off.natAbs / 60) (by omega)
      have fb := render2_facts (off.natAbs % 60) (by omega)
      simp [hasTZMarkerChars, renderISO, htz, hshape, List.countP_append,
        List.countP_cons, hp.2, fa.2, fb.2]
    · have hshape : renderOffset (some off) useZ =
          '+' :: (render2 (off.natAbs / 60) ++ ':' :: render2 (off.natAbs % 60)) := by
        simp [renderOffset, hzb, hneg]
      simp [hasTZMarkerChars, renderISO, htz, hshape, List.mem_append]

theorem replaceZ_of_not_mem (l : List Char) (h : 'Z' ∉ l) :
    replaceZChars l = l := by
  induction l with
  | nil => rfl
  | cons c cs ih =>
    simp only [List.mem_cons, not_or] at h
    have hc : ¬ c = 'Z' := fun hcc => h.1 hcc.symm
    simp [replaceZChars, hc, ih h.2]

theorem replaceZ_append_of_not_mem (p l : List Char) (h : 'Z' ∉ p) :
    replaceZChars (p ++ l) = p ++ replaceZChars l := by
  induction p with
  | nil => rfl
  | cons c cs ih =>
    simp only [List.mem_cons, not_or] at h
    have hc : ¬ c = 'Z' := fun hcc => h.1 hcc.symm
    simp [replaceZChars, hc, ih h.2]

/-- Replacing `Z` in the `Z`-suffixed rendering of a UTC datetime yields
exactly its `+00:00`-suffixed rendering. -/
theorem replaceZ_renderISO_zform (dt : PyDateTime) (h : isValidDT dt = true)
    (h0 : dt.tzOffsetMinutes = some 0) :
    replaceZChars (renderISO dt true) = renderISO dt false := by
  have hp := renderPrefix_facts dt h
  have h1 : renderISO dt true = renderPrefix dt ++ ['Z'] := by
    simp [renderISO, renderOffset, h0]
  have h2 : renderISO dt false = renderPrefix dt ++ renderOffset (some 0) false := by
    simp [renderISO, h0]
  rw [h1, h2, replaceZ_append_of_not_mem _ _ hp.1.1]
  congr 1

/-- For a valid rendering that is not the `Z` form, the handler's
`replace('Z', '+00:00')` is the identity. -/
theorem replaceZ_renderISO_id (dt : PyDateTime) (useZ : Bool)
    (h : isValidDT dt = true)
    (hnz : ∀ off, dt.tzOffsetMinutes = some off → (useZ && off == 0) = false) :
    replaceZChars (renderISO dt useZ) = renderISO dt useZ := by
  have hp := renderPrefix_facts dt h
  apply replaceZ_of_not_mem
  cases htz : dt.tzOffsetMinutes with
  | none => simp [renderISO, renderOffset, htz, hp.1.1]
  | some off =>
    have hzb := hnz off htz
    by_cases hneg : off < 0
    · have hshape : renderOffset (some off) useZ =
          '-' :: (render2 (off.natAbs / 60) ++ ':' :: render2 (off.natAbs % 60)) := by
        simp [renderOffset, hzb, hneg]
      have hvo : validOffset dt.tzOffsetMinutes = true := by
        simp [isValidDT] at h; exact h.2
      rw [htz] at hvo
      have hoff : off.natAbs ≤ 23 * 60 + 59 := by simpa [validOffset] using hvo
      have fa := render2_facts (off.natAbs / 60) (by omega)
      have fb := render2_facts (off.natAbs % 60) (by omega)
      simp [renderISO, htz, hshape, List.mem_append, hp.1.1, fa.1.1, fb.1.1]
    · have hshape : renderOffset (some off) useZ =
          '+' :: (render2 (off.natAbs / 60) ++ ':' :: render2 (off.natAbs % 60)) := by
        simp [renderOffset, hzb, hneg]
      have hvo : validOffset dt.tzOffsetMinutes = true := by
        simp [isValidDT] at h; exact h.2
      rw [htz] at hvo
      have hoff : off.natAbs ≤ 23 * 60 + 59 := by simpa [validOffset] using hvo
      have fa := render2_facts (off.natAbs / 60) (by omega)
      have fb := render2_facts (off.natAbs % 60) (by omega)
      simp [renderISO, htz, hshape, List.mem_append, hp.1.1, fa.1.1, fb.1.1]

/-- C1: for every schedule-interview datetime string carrying explicit
offset/zone information (any valid rendering with a `±HH:MM` or `Z`
suffix), the parsed instant equals the instant the string denotes; for
every datetime string without offset information, the fields are read at
the fixed UTC+5:30 offset and converted to UTC (i.e. 19800 seconds are
subtracted); in particular `"2025-03-01T10:00:00+05:30"` and
`"2025-03-01T10:00:00"` parse to the same UTC instant. -/
theorem c1_datetime_parsing_policy (dt : PyDateTime) (useZ : Bool)
    (h : isValidDT dt = true) :
    ((∀ off, dt.tzOffsetMinutes = some off →
        parseScheduleInstant (renderISO dt useZ) = some (toUTCSeconds dt)) ∧
      (dt.tzOffsetMinutes = none →
        parseScheduleInstant (renderISO dt useZ) =
          some (naiveEpochSeconds dt - 19800))) ∧
    parseScheduleInstant (String.toList "2025-03-01T10:00:00+05:30") =
      parseScheduleInstant (String.toList "2025-03-01T10:00:00") := by
  refine ⟨⟨?_, ?_⟩, by decide⟩
  · intro off htz
    have hm := marker_aware dt useZ off h htz
    have hparse : pyFromIsoformat (replaceZChars (renderISO dt useZ)) = some dt := by
      cases hzb : (useZ && off == 0) with
      | true =>
        have huz : useZ = true := by cases useZ <;> simp_all
        have hoff0 : off = 0 := by cases useZ <;> simp_all
        rw [huz, replaceZ_renderISO_zform dt h (by rw [htz, hoff0])]
        exact pyFromIsoformat_render dt false h
      | false =>
        have hnz : ∀ o, dt.tzOffsetMinutes = some o → (useZ && o == 0) = false := by
          intro o ho
          rw [htz] at ho
          have : o = off := (Option.some.inj ho).symm
          rw [this]
          exact hzb
        rw [replaceZ_renderISO_id dt useZ h hnz]
        exact pyFromIsoformat_render dt useZ h
    simp [parseScheduleInstant, hm, hparse]
  · intro htz
    have hm := marker_naive dt useZ h htz
    have hparse := pyFromIsoformat_render dt useZ h
    simp [parseScheduleInstant, hm, hparse, setIST, istMinutes, toUTCSeconds,
      naiveEpochSeconds, htz]

/-! Shallow embedding of the request handlers of `src/app/api/main.py`.
External service calls (booking store, email provider, object storage)
are passed in as explicit outcome arguments; the `random.randint` suffix
draws are passed in as numbers. -/

/-- A booking record as returned by the booking store. -/
structure Booking where
  token : String := ""
  name : String := ""
  email : String := ""
  phone : String := ""
  scheduled_at : String := ""
  created_at : String := ""
  resume_text : Option String := none
  resume_url : Option String := none
deriving Repr, DecidableEq

/-- Outcome of `booking_service.create_booking`. -/
inductive CreateOutcome
  | ok (token : String)
  | raised (msg : String)
deriving Repr, DecidableEq

/-- Outcome of `email_service.send_interview_email`, which returns a
`(sent, error)` pair or raises. -/
inductive EmailOutcome
  | returned (sent : Bool) (err : Option String)
  | raised (msg : String)
deriving Repr, DecidableEq

/-- Outcome of `booking_service.get_booking`. -/
inductive LookupOutcome
  | found (b : Booking)
  | notFound
  | raised (msg : String)
deriving Repr, DecidableEq

/-- `ScheduleInterviewRequest` body fields (a missing/blank field is the
empty string, which Python's truthiness check treats as missing). -/
structure ScheduleRequest where
  name : String
  email : String
  phone : String
  datetime : String
  resumeUrl : Option String := none
  resumeText : Option String := none
deriving Repr, DecidableEq

/-- Observable outcome of the schedule-interview endpoint:
HTTP status, `ScheduleInterviewResponse` fields, and whether a booking
was written to the store during the request. -/
structure ScheduleResult where
  status : Nat
  ok : Bool := false
  interviewUrl : Option String := none
  emailSent : Bool := false
  emailError : Option String := none
  bookingCreated : Bool := false
deriving Repr, DecidableEq

/-- Python `s.rstrip('/')`. -/
def rstripSlash (s : String) : String :=
  String.mk ((s.toList.reverse.dropWhile (fun c => c = '/')).reverse)

/-- `f"{base_url}/interview/{token}"` after `rstrip('/')`. -/
def interviewUrlOf (frontendUrl token : String) : String :=
  rstripSlash frontendUrl ++ "/interview/" ++ token

/-- The `schedule_interview` handler (src/app/api/main.py lines
155-258): reject blank fields with 400, reject unparsable datetimes with
400, surface a store failure as 500, and treat email failure as
non-fatal. -/
def schedule_interview (req : ScheduleRequest) (create : CreateOutcome)
    (email : EmailOutcome) (frontendUrl : String) : ScheduleResult :=
  if req.name = "" || req.email = "" || req.phone = "" || req.datetime = "" then
    { status := 400 }
  else
    match parseScheduleInstant req.datetime.toList with
    | none => { status := 400 }
    | some _ =>
      match create with
      | .raised _ => { status := 500 }
      | .ok token =>
        let url := interviewUrlOf frontendUrl token
        match email with
        | .returned sent err =>
          { status := 200, ok := true, interviewUrl := some url,
            emailSent := sent, emailError := err, bookingCreated := true }
        | .raised msg =>
          { status := 200, ok := true, interviewUrl := some url,
            emailSent := false, emailError := some msg, bookingCreated := true }

/-- Result of the get-booking endpoint. -/
inductive GetBookingResult
  | ok (b : Booking)
  | notFoundError
  | serverError (msg : String)
deriving Repr, DecidableEq

/-- HTTP status of a get-booking result. -/
def GetBookingResult.statusCode : GetBookingResult → Nat
  | .ok _ => 200
  | .notFoundError => 404
  | .serverError _ => 500

/-- Booking fields returned by a get-booking result, if any. -/
def GetBookingResult.bookingFields : GetBookingResult → Option Booking
  | .ok b => some b
  | _ => none

/-- A direct keyed read against the booking store (no exception). -/
def lookupIn (store : String → Option Booking) (token : String) : LookupOutcome :=
  match store token with
  | some b => .found b
  | none => .notFound

/-- The `get_booking` handler (src/app/api/main.py lines 261-283):
404 when the store has no record, 500 when the lookup raises. -/
def get_booking : LookupOutcome → GetBookingResult
  | .found b => .ok b
  | .notFound => .notFoundError
  | .raised m => .serverError ("Failed to fetch booking: " ++ m)

/-- The LiveKit section of the process configuration; an unconfigured
value is the empty string (falsy in the handler's checks). -/
structure LiveKitConfig where
  url : String
  api_key : String
  api_secret : String
  agent_name : String
deriving Repr, DecidableEq

/-- One entry of the request's `room_config.agents` array. -/
structure AgentReqEntry where
  agent_name : Option String := none
deriving Repr, DecidableEq

/-- The request's nested `room_config` dictionary (only the `agents`
array is read by the handler). -/
structure RoomConfigReq where
  agents : List AgentReqEntry := []
deriving Repr, DecidableEq

/-- `ConnectionDetailsRequest` body. -/
structure ConnRequest where
  room_config : Option RoomConfigReq := none
  token : Option String := none
deriving Repr, DecidableEq

/-- `livekit_api.VideoGrants` as populated by the handler. -/
structure VideoGrants where
  room : String
  room_join : Bool
  can_publish : Bool
  can_publish_data : Bool
  can_subscribe : Bool
deriving Repr, DecidableEq

/-- `livekit_api.RoomConfiguration`: dispatched agent names plus
optional room metadata. -/
structure RoomConfiguration where
  agents : List String
  metadata : Option String := none
deriving Repr, DecidableEq

/-- The content of the signed participant credential: everything the
handler stamps into the `AccessToken` before `to_jwt()`. -/
structure AccessToken where
  api_key : String
  api_secret : String
  identity : String
  name : String
  ttlSeconds : Nat
  grants : Option VideoGrants := none
  roomConfig : Option RoomConfiguration := none
deriving Repr, DecidableEq

/-- Simple JSON string escaping (quote and backslash), standing in for
`json.dumps` escaping. -/
def jsonEscape (s : String) : String :=
  String.mk (s.toList.foldr
    (fun c acc =>
      if c = '"' then '\\' :: '"' :: acc
      else if c = '\\' then '\\' :: '\\' :: acc
      else c :: acc) [])

/-- `json.dumps(\x7b"resume_text": resume_text\x7d)`. -/
def jsonDumpsResumeText (t : String) : String :=
  "\x7b\"resume_text\": \"" ++ jsonEscape t ++ "\"\x7d"

/-- Agent-name resolution of the handler: first entry of the request's
`agents` array if it carries a truthy name, else the configured
default. -/
def resolvedAgentName (cfg : LiveKitConfig) (req : ConnRequest) : String :=
  let fromReq : Option String :=
    match req.room_config with
    | some rc =>
      match rc.agents with
      | a :: _ => a.agent_name
      | [] => none
    | none => none
  match fromReq with
  | some s => if s = "" then cfg.agent_name else s
  | none => cfg.agent_name

/-- Resume-text recovery of the handler: only when a token was supplied
and the lookup returned a record whose `resume_text` is truthy; a raised
lookup is swallowed. -/
def resumeFromLookup (tok : Option String) (lookup : LookupOutcome) : Option String :=
  match tok with
  | none => none
  | some _ =>
    match lookup with
    | .found b =>
      match b.resume_text with
      | some t => if t = "" then none else some t
      | none => none
    | _ => none

/-- Result of the connection-details endpoint. -/
inductive ConnResult
  | configError (status : Nat) (detail : String)
  | success (serverUrl : String) (roomName : String) (participantName : String)
      (tok : AccessToken)
deriving Repr, DecidableEq

/-- The `connection_details` handler (src/app/api/main.py lines
286-425): credential checks first, then agent-name resolution, optional
resume lookup, and construction of the access token with a fixed
15-minute TTL and the full room grant. -/
def connection_details (cfg : LiveKitConfig) (req : ConnRequest)
    (lookup : LookupOutcome) (roomN userN : Nat) : ConnResult :=
  if cfg.url = "" then .configError 500 "LIVEKIT_URL is not configured"
  else if cfg.api_key = "" then .configError 500 "LIVEKIT_API_KEY is not configured"
  else if cfg.api_secret = "" then .configError 500 "LIVEKIT_API_SECRET is not configured"
  else
    let agentName := resolvedAgentName cfg req
    let resume := resumeFromLookup req.token lookup
    let participantIdentity := "voice_assistant_user_" ++ toString userN
    let roomName := "voice_assistant_room_" ++ toString roomN
    let roomMeta := resume.map jsonDumpsResumeText
    let roomCfg : Option RoomConfiguration :=
      if agentName = "" then none
      else some { agents := [agentName], metadata := roomMeta }
    let tok : AccessToken :=
      { api_key := cfg.api_key, api_secret := cfg.api_secret,
        identity := participantIdentity, name := "user",
        ttlSeconds := 15 * 60,
        grants := some { room := roomName, room_join := true, can_publish := true,
                         can_publish_data := true, can_subscribe := true },
        roomConfig := roomCfg }
    .success cfg.url roomName "user" tok

/-- The room metadata attached to a result's credential, if any. -/
def ConnResult.roomMetadata : ConnResult → Option String
  | .success _ _ _ tok => tok.roomConfig.bind (fun rc => rc.metadata)
  | _ => none

/-- Outcome of `resume_service.validate_file`. -/
inductive ValidationOutcome
  | accepted
  | rejected (msg : String)
deriving Repr, DecidableEq

/-- Outcome of `booking_service.upload_resume_to_storage`. -/
inductive StorageOutcome
  | stored (url : String)
  | raised (msg : String)
deriving Repr, DecidableEq

/-- Result of the upload-application endpoint. -/
inductive UploadResult
  | ok (resumeUrl : String) (resumeText : Option String)
      (extractionError : Option String)
  | clientError (status : Nat) (detail : String)
  | serverError (status : Nat) (detail : String)
deriving Repr, DecidableEq

/-- The `upload_application` handler (src/app/api/main.py lines
98-159): 400 on invalid file, 500 on storage failure, and a success
response carrying the storage URL regardless of the text-extraction
outcome `(extracted, extractionError)`. -/
def upload_application (validate : ValidationOutcome) (storage : StorageOutcome)
    (extracted : Option String) (extractionError : Option String) : UploadResult :=
  match validate with
  | .rejected msg => .clientError 400 msg
  | .accepted =>
    match storage with
    | .raised msg => .serverError 500 ("Failed to upload application: " ++ msg)
    | .stored url =>
      .ok url
        (match extracted with
         | some t => if t = "" then none else some t
         | none => none)
        extractionError

/-! Shallow embedding of `src/test_api_keys.py`: each provider probe is
an outcome bit, Tavus (optional) may be unconfigured. -/

/-- The probe results collected by `main` in `src/test_api_keys.py`. -/
structure ProbeResults where
  gemini : Bool
  deepgram : Bool
  elevenlabs : Bool
  livekit : Bool
  supabase : Bool
  tavus : Option Bool := none
deriving Repr, DecidableEq

/-- The required-provider checks, in the order `main` iterates them. -/
def requiredChecks (r : ProbeResults) : List Bool :=
  [r.gemini, r.deepgram, r.elevenlabs, r.livekit, r.supabase]

/-- `all_required_valid` as computed by the summary loop of `main`. -/
def allRequiredValid (r : ProbeResults) : Bool :=
  (requiredChecks r).all (fun b => b)

/-- The value `main` returns (src/test_api_keys.py lines 349-400). -/
def mainReturnCode (r : ProbeResults) : Nat :=
  if allRequiredValid r then 0 else 1

/-- How the `asyncio.run(main())` invocation ends. -/
inductive RunOutcome
  | completed (r : ProbeResults)
  | interrupted
  | crashed (msg : String)
deriving Repr, DecidableEq

/-- The process exit code produced by the `__main__` guard
(src/test_api_keys.py lines 403-414): `main`'s return value on normal
completion, 1 on keyboard interrupt, 1 on any other exception. -/
def scriptExitCode : RunOutcome → Nat
  | .completed r => mainReturnCode r
  | .interrupted => 1
  | .crashed _ => 1

/-- Concrete valid datetime used to witness C1. -/
def c1dt : PyDateTime := ⟨2025, 3, 1, 10, 0, 0, some 330⟩

/-- C1 witness: the policy theorem applied at the concrete datetime
2025-03-01T10:00:00+05:30. -/
theorem c1_datetime_parsing_policy_witness :
    isValidDT c1dt = true ∧
    (((∀ off, c1dt.tzOffsetMinutes = some off →
        parseScheduleInstant (renderISO c1dt false) = some (toUTCSeconds c1dt)) ∧
      (c1dt.tzOffsetMinutes = none →
        parseScheduleInstant (renderISO c1dt false) =
          some (naiveEpochSeconds c1dt - 19800))) ∧
    parseScheduleInstant (String.toList "2025-03-01T10:00:00+05:30") =
      parseScheduleInstant (String.toList "2025-03-01T10:00:00")) :=
  ⟨by decide, c1_datetime_parsing_policy c1dt false (by decide)⟩

/-- C2: a schedule-interview request with a blank name, email, phone or
datetime field, or whose datetime string does not parse, receives status
400 and no booking is created. -/
theorem c2_schedule_bad_input_rejected (req : ScheduleRequest)
    (create : CreateOutcome) (email : EmailOutcome) (frontendUrl : String)
    (h : req.name = "" ∨ req.email = "" ∨ req.phone = "" ∨ req.datetime = "" ∨
      parseScheduleInstant req.datetime.toList = none) :
    (schedule_interview req create email frontendUrl).status = 400 ∧
    (schedule_interview req create email frontendUrl).bookingCreated = false := by
  by_cases hb : (req.name = "" || req.email = "" || req.phone = "" ||
      req.datetime = "" : Bool) = true
  · simp [schedule_interview, hb]
  · simp only [Bool.or_eq_true, decide_eq_true_eq, not_or] at hb
    have hp : parseScheduleInstant req.datetime.toList = none := by
      rcases h with h | h | h | h | h
      · exact absurd h hb.1.1.1
      · exact absurd h hb.1.1.2
      · exact absurd h hb.1.2
      · exact absurd h hb.2
      · exact h
    have hp2 : parseScheduleInstant req.datetime.data = none := hp
    simp [schedule_interview, hb.1.1.1, hb.1.1.2, hb.1.2, hb.2, hp, hp2]

/-- Concrete request with an unparsable datetime, witnessing C2. -/
def c2req : ScheduleRequest :=
  { name := "Alice", email := "alice@example.com", phone := "12345",
    datetime := "not-a-date" }

/-- C2 witness: a concrete unparsable datetime yields 400 and no
booking. -/
theorem c2_schedule_bad_input_rejected_witness :
    (c2req.name = "" ∨ c2req.email = "" ∨ c2req.phone = "" ∨ c2req.datetime = "" ∨
      parseScheduleInstant c2req.datetime.toList = none) ∧
    ((schedule_interview c2req (CreateOutcome.ok "tok")
        (EmailOutcome.returned true none) "http://front").status = 400 ∧
      (schedule_interview c2req (CreateOutcome.ok "tok")
        (EmailOutcome.returned true none) "http://front").bookingCreated = false) :=
  ⟨Or.inr (Or.inr (Or.inr (Or.inr (by decide)))),
    c2_schedule_bad_input_rejected c2req (CreateOutcome.ok "tok")
      (EmailOutcome.returned true none) "http://front"
      (Or.inr (Or.inr (Or.inr (Or.inr (by decide)))))⟩

/-- C3: for every token absent from the booking store, the get-booking
endpoint answers 404 and returns no booking fields. -/
theorem c3_get_booking_unknown_token (store : String → Option Booking)
    (token : String) (h : store token = none) :
    (get_booking (lookupIn store token)).statusCode = 404 ∧
    (get_booking (lookupIn store token)).bookingFields = none := by
  simp [lookupIn, h, get_booking, GetBookingResult.statusCode,
    GetBookingResult.bookingFields]

/-- C3 witness: the empty store at a concrete token. -/
theorem c3_get_booking_unknown_token_witness :
    ((fun _ : String => (none : Option Booking)) "ghost" = none) ∧
    ((get_booking (lookupIn (fun _ => none) "ghost")).statusCode = 404 ∧
      (get_booking (lookupIn (fun _ => none) "ghost")).bookingFields = none) :=
  ⟨rfl, c3_get_booking_unknown_token (fun _ => none) "ghost" rfl⟩

/-- C4: if any of the three LiveKit credentials is unconfigured, the
connection-details endpoint answers a 500 configuration error in which
no credential token appears. -/
theorem c4_connection_details_missing_credentials (cfg : LiveKitConfig)
    (req : ConnRequest) (lookup : LookupOutcome) (roomN userN : Nat)
    (h : cfg.url = "" ∨ cfg.api_key = "" ∨ cfg.api_secret = "") :
    ∃ d, connection_details cfg req lookup roomN userN =
      ConnResult.configError 500 d := by
  unfold connection_details
  split_ifs with h1 h2 h3
  · exact ⟨_, rfl⟩
  · exact ⟨_, rfl⟩
  · exact ⟨_, rfl⟩
  · tauto

/-- C4 witness: a configuration missing only the API secret. -/
theorem c4_connection_details_missing_credentials_witness :
    (("wss://lk" : String) = "" ∨ ("key" : String) = "" ∨ ("" : String) = "") ∧
    ∃ d, connection_details ⟨"wss://lk", "key", "", "agent"⟩ {} LookupOutcome.notFound 1 2 =
      ConnResult.configError 500 d :=
  ⟨Or.inr (Or.inr rfl),
    c4_connection_details_missing_credentials ⟨"wss://lk", "key", "", "agent"⟩
      {} LookupOutcome.notFound 1 2 (Or.inr (Or.inr rfl))⟩

/-- C5: with all three credentials configured and no booking token, the
issued credential carries the generated participant identity, the
display name `user`, a 15-minute TTL, a grant on the generated room with
join/publish/publish-data/subscribe, and no resume metadata. -/
theorem c5_connection_details_no_token (cfg : LiveKitConfig) (req : ConnRequest)
    (lookup : LookupOutcome) (roomN userN : Nat)
    (hu : cfg.url ≠ "") (hk : cfg.api_key ≠ "") (hs : cfg.api_secret ≠ "")
    (ht : req.token = none) :
    ∃ tok : AccessToken,
      connection_details cfg req lookup roomN userN =
        ConnResult.success cfg.url ("voice_assistant_room_" ++ toString roomN)
          "user" tok ∧
      tok.identity = "voice_assistant_user_" ++ toString userN ∧
      tok.name = "user" ∧
      tok.ttlSeconds = 15 * 60 ∧
      tok.grants = some ⟨"voice_assistant_room_" ++ toString roomN,
        true, true, true, true⟩ ∧
      (∀ rc, tok.roomConfig = some rc → rc.metadata = none) := by
  refine ⟨⟨cfg.api_key, cfg.api_secret, "voice_assistant_user_" ++ toString userN,
      "user", 15 * 60,
      some ⟨"voice_assistant_room_" ++ toString roomN, true, true, true, true⟩,
      if resolvedAgentName cfg req = "" then none
      else some ⟨[resolvedAgentName cfg req], none⟩⟩, ?_, rfl, rfl, rfl, rfl, ?_⟩
  · unfold connection_details
    simp [hu, hk, hs, resumeFromLookup, ht]
  · intro rc hrc
    split at hrc
    · simp at hrc
    · injection hrc with hrc2
      subst hrc2
      rfl

/-- C5 witness: concrete configured credentials, no token. -/
theorem c5_connection_details_no_token_witness :
    (("wss://lk" : String) ≠ "" ∧ ("key" : String) ≠ "" ∧ ("secret" : String) ≠ "" ∧
      ({} : ConnRequest).token = none) ∧
    ∃ tok : AccessToken,
      connection_details ⟨"wss://lk", "key", "secret", "agent"⟩ {} LookupOutcome.notFound 7 9 =
        ConnResult.success "wss://lk" ("voice_assistant_room_" ++ toString 7) "user" tok ∧
      tok.identity = "voice_assistant_user_" ++ toString 9 ∧
      tok.name = "user" ∧
      tok.ttlSeconds = 15 * 60 ∧
      tok.grants = some ⟨"voice_assistant_room_" ++ toString 7,
        true, true, true, true⟩ ∧
      (∀ rc, tok.roomConfig = some rc → rc.metadata = none) :=
  ⟨⟨by decide, by decide, by decide, rfl⟩,
    c5_connection_details_no_token ⟨"wss://lk", "key", "secret", "agent"⟩ {}
      LookupOutcome.notFound 7 9 (by decide) (by decide) (by decide) rfl⟩

/-- Configuration with an empty default agent name, refuting C6. -/
def c6cfg : LiveKitConfig :=
  { url := "wss://lk", api_key := "key", api_secret := "secret", agent_name := "" }

/-- Request carrying a booking token and no room_config, refuting C6. -/
def c6req : ConnRequest := { room_config := none, token := some "tok123" }

/-- Booking carrying resume text, refuting C6. -/
def c6booking : Booking := { token := "tok123", resume_text := some "Resume body" }

/-- C6 counterexample: a request whose token resolves to a booking with
resume text, but the resolved agent name is empty (no agents in the
request, empty configured default), so the issued credential carries no
room configuration and hence no resume metadata at all. -/
theorem c6_resume_metadata_counterexample :
    c6req.token = some "tok123" ∧
    c6booking.resume_text = some "Resume body" ∧
    (connection_details c6cfg c6req (LookupOutcome.found c6booking) 1 2).roomMetadata
      = none := by
  refine ⟨rfl, rfl, ?_⟩
  decide

/-- C6 (amended): with configured credentials, a booking token resolving
to a record with non-empty resume text, and a non-empty resolved agent
name, the credential's attached room configuration carries that resume
text (JSON-wrapped) as session metadata. -/
theorem c6_resume_metadata_amended (cfg : LiveKitConfig) (req : ConnRequest)
    (b : Booking) (roomN userN : Nat) (t r : String)
    (hu : cfg.url ≠ "") (hk : cfg.api_key ≠ "") (hs : cfg.api_secret ≠ "")
    (ht : req.token = some t) (hb : b.resume_text = some r) (hr : r ≠ "")
    (ha : resolvedAgentName cfg req ≠ "") :
    ∃ tok rc,
      connection_details cfg req (LookupOutcome.found b) roomN userN =
        ConnResult.success cfg.url ("voice_assistant_room_" ++ toString roomN)
          "user" tok ∧
      tok.roomConfig = some rc ∧
      rc.metadata = some (jsonDumpsResumeText r) ∧
      rc.agents = [resolvedAgentName cfg req] := by
  have hres : resumeFromLookup req.token (LookupOutcome.found b) = some r := by
    simp [resumeFromLookup, ht, hb, hr]
  refine ⟨⟨cfg.api_key, cfg.api_secret, "voice_assistant_user_" ++ toString userN,
      "user", 15 * 60,
      some ⟨"voice_assistant_room_" ++ toString roomN, true, true, true, true⟩,
      some ⟨[resolvedAgentName cfg req], some (jsonDumpsResumeText r)⟩⟩,
    ⟨[resolvedAgentName cfg req], some (jsonDumpsResumeText r)⟩, ?_, rfl, rfl, rfl⟩
  unfold connection_details
  simp [hu, hk, hs, hres, ha]

/-- Agent-capable configuration for the C6 amended-claim witness. -/
def c6wcfg : LiveKitConfig :=
  { url := "wss://lk", api_key := "key", api_secret := "secret",
    agent_name := "interview-agent" }

/-- C6 amended witness: concrete credentials, token and resume text. -/
theorem c6_resume_metadata_amended_witness :
    (c6wcfg.url ≠ "" ∧ c6wcfg.api_key ≠ "" ∧ c6wcfg.api_secret ≠ "" ∧
      c6req.token = some "tok123" ∧ c6booking.resume_text = some "Resume body" ∧
      ("Resume body" : String) ≠ "" ∧ resolvedAgentName c6wcfg c6req ≠ "") ∧
    ∃ tok rc,
      connection_details c6wcfg c6req (LookupOutcome.found c6booking) 1 2 =
        ConnResult.success c6wcfg.url ("voice_assistant_room_" ++ toString 1)
          "user" tok ∧
      tok.roomConfig = some rc ∧
      rc.metadata = some (jsonDumpsResumeText "Resume body") ∧
      rc.agents = [resolvedAgentName c6wcfg c6req] :=
  ⟨⟨by decide, by decide, by decide, rfl, rfl, by decide, by decide⟩,
    c6_resume_metadata_amended c6wcfg c6req c6booking 1 2 "tok123" "Resume body"
      (by decide) (by decide) (by decide) rfl rfl (by decide) (by decide)⟩

/-- C7: when booking creation succeeds, an email failure — a `(False,
error)` return or a raised exception — leaves the response a success
with `emailSent = false` and the error string in `emailError`. -/
theorem c7_email_failure_nonfatal (req : ScheduleRequest)
    (token frontendUrl e : String) (email : EmailOutcome) (i : Int)
    (hn : req.name ≠ "") (he : req.email ≠ "") (hp : req.phone ≠ "")
    (hd : req.datetime ≠ "")
    (hparse : parseScheduleInstant req.datetime.toList = some i)
    (hfail : email = EmailOutcome.returned false (some e) ∨
      email = EmailOutcome.raised e) :
    schedule_interview req (CreateOutcome.ok token) email frontendUrl =
      { status := 200, ok := true,
        interviewUrl := some (interviewUrlOf frontendUrl token),
        emailSent := false, emailError := some e, bookingCreated := true } := by
  have hparse2 : parseScheduleInstant req.datetime.data = some i := hparse
  rcases hfail with hf | hf <;>
    simp [schedule_interview, hn, he, hp, hd, hparse, hparse2, hf]

/-- Concrete complete request witnessing C7. -/
def c7req : ScheduleRequest :=
  { name := "Alice", email := "alice@example.com", phone := "12345",
    datetime := "2025-03-01T10:00:00+05:30" }

/-- C7 witness: a raised email exception on a concrete valid request. -/
theorem c7_email_failure_nonfatal_witness :
    (c7req.name ≠ "" ∧ c7req.email ≠ "" ∧ c7req.phone ≠ "" ∧ c7req.datetime ≠ "" ∧
      parseScheduleInstant c7req.datetime.toList = some 1740803400 ∧
      (EmailOutcome.raised "smtp down" = EmailOutcome.returned false (some "smtp down") ∨
        EmailOutcome.raised "smtp down" = EmailOutcome.raised "smtp down")) ∧
    schedule_interview c7req (CreateOutcome.ok "tok") (EmailOutcome.raised "smtp down")
        "http://front/" =
      { status := 200, ok := true,
        interviewUrl := some (interviewUrlOf "http://front/" "tok"),
        emailSent := false, emailError := some "smtp down", bookingCreated := true } :=
  ⟨⟨by decide, by decide, by decide, by decide, by decide, Or.inr rfl⟩,
    c7_email_failure_nonfatal c7req "tok" "http://front/" "smtp down"
      (EmailOutcome.raised "smtp down") 1740803400
      (by decide) (by decide) (by decide) (by decide) (by decide) (Or.inr rfl)⟩

/-- C8: a validated upload whose storage write succeeds returns a
success response carrying the (non-empty) storage URL, whatever the
extraction outcome; an extraction failure appears only in the
`extractionError` field. -/
theorem c8_upload_extraction_never_fatal (url : String)
    (extracted extractionError : Option String) (hurl : url ≠ "") :
    ∃ txt, upload_application ValidationOutcome.accepted (StorageOutcome.stored url)
        extracted extractionError =
      UploadResult.ok url txt extractionError ∧ url ≠ "" :=
  ⟨_, rfl, hurl⟩

/-- C8 witness: a concrete URL with failed extraction. -/
theorem c8_upload_extraction_never_fatal_witness :
    (("https://store/x.pdf" : String) ≠ "") ∧
    ∃ txt, upload_application ValidationOutcome.accepted
        (StorageOutcome.stored "https://store/x.pdf") none (some "no text layer") =
      UploadResult.ok "https://store/x.pdf" txt (some "no text layer") ∧
      ("https://store/x.pdf" : String) ≠ "" :=
  ⟨by decide,
    c8_upload_extraction_never_fatal "https://store/x.pdf" none
      (some "no text layer") (by decide)⟩

/-- C9: the diagnostic script's exit code is 0 exactly when the run
completed with every required provider valid, and is 1 in every other
case, including keyboard interruption and an escaping exception. -/
theorem c9_script_exit_code (out : RunOutcome) :
    (scriptExitCode out = 0 ↔
      ∃ r, out = RunOutcome.completed r ∧ allRequiredValid r = true) ∧
    (scriptExitCode out = 0 ∨ scriptExitCode out = 1) := by
  cases out with
  | completed r =>
    by_cases hv : allRequiredValid r = true
    · simp [scriptExitCode, mainReturnCode, hv]
    · simp [scriptExitCode, mainReturnCode, hv]
  | interrupted => simp [scriptExitCode]
  | crashed m => simp [scriptExitCode]

/-- C10: with configured credentials and a supplied booking token, a
lookup miss, a raised lookup, or a record without resume text leaves the
endpoint issuing the same successful credential as if no token had been
supplied. -/
theorem c10_lookup_failure_ignored (cfg : LiveKitConfig) (req : ConnRequest)
    (lookup : LookupOutcome) (roomN userN : Nat) (t : String)
    (hu : cfg.url ≠ "") (hk : cfg.api_key ≠ "") (hs : cfg.api_secret ≠ "")
    (ht : req.token = some t)
    (hcase : lookup = LookupOutcome.notFound ∨
      (∃ m, lookup = LookupOutcome.raised m) ∨
      (∃ b, lookup = LookupOutcome.found b ∧
        (b.resume_text = none ∨ b.resume_text = some ""))) :
    connection_details cfg req lookup roomN userN =
      connection_details cfg { req with token := none } lookup roomN userN ∧
    ∃ tok, connection_details cfg req lookup roomN userN =
      ConnResult.success cfg.url ("voice_assistant_room_" ++ toString roomN)
        "user" tok := by
  have hres : resumeFromLookup req.token lookup = none := by
    rcases hcase with hc | ⟨m, hc⟩ | ⟨b, hc, hrt⟩
    · simp [resumeFromLookup, ht, hc]
    · simp [resumeFromLookup, ht, hc]
    · rcases hrt with hrt | hrt <;> simp [resumeFromLookup, ht, hc, hrt]
  have hres' : resumeFromLookup ({ req with token := none } : ConnRequest).token lookup
      = none := rfl
  have hagent : resolvedAgentName cfg { req with token := none } =
      resolvedAgentName cfg req := rfl
  constructor
  · unfold connection_details
    simp [hres, hres', hagent]
  · refine ⟨⟨cfg.api_key, cfg.api_secret, "voice_assistant_user_" ++ toString userN,
      "user", 15 * 60,
      some ⟨"voice_assistant_room_" ++ toString roomN, true, true, true, true⟩,
      if resolvedAgentName cfg req = "" then none
      else some ⟨[resolvedAgentName cfg req], none⟩⟩, ?_⟩
    unfold connection_details
    simp [hu, hk, hs, hres]

/-- C10 witness: concrete credentials and a token resolving to no
record. -/
theorem c10_lookup_failure_ignored_witness :
    (("wss://lk" : String) ≠ "" ∧ ("key" : String) ≠ "" ∧ ("secret" : String) ≠ "" ∧
      (ConnRequest.mk none (some "tok123")).token = some "tok123" ∧
      (LookupOutcome.notFound = LookupOutcome.notFound ∨
        (∃ m, LookupOutcome.notFound = LookupOutcome.raised m) ∨
        (∃ b, LookupOutcome.notFound = LookupOutcome.found b ∧
          (b.resume_text = none ∨ b.resume_text = some "")))) ∧
    (connection_details ⟨"wss://lk", "key", "secret", "agent"⟩
        (ConnRequest.mk none (some "tok123")) LookupOutcome.notFound 1 2 =
      connection_details ⟨"wss://lk", "key", "secret", "agent"⟩
        { ConnRequest.mk none (some "tok123") with token := none }
        LookupOutcome.notFound 1 2 ∧
      ∃ tok, connection_details ⟨"wss://lk", "key", "secret", "agent"⟩
          (ConnRequest.mk none (some "tok123")) LookupOutcome.notFound 1 2 =
        ConnResult.success "wss://lk" ("voice_assistant_room_" ++ toString 1)
          "user" tok) :=
  ⟨⟨by decide, by decide, by decide, rfl, Or.inl rfl⟩,
    c10_lookup_failure_ignored ⟨"wss://lk", "key", "secret", "agent"⟩
      (ConnRequest.mk none (some "tok123")) LookupOutcome.notFound 1 2 "tok123"
      (by decide) (by decide) (by decide) rfl (Or.inl rfl)⟩

end LKInterview
